import Mathlib

/-!
Verification development for the SANS-webapp repository.

The repository is a Streamlit application over an external fitting library.
We shallowly embed the state-synchronization layer:

* `src/sans_webapp/services/mcp_state_bridge.py`  (SessionStateBridge)
* `src/sans_webapp/services/session_state.py`     (clear_parameter_state)
* `src/sans_webapp/mcp_server.py`                 (the AI tools)
* `src/sans_webapp/services/claude_mcp_client.py` (execute_tool)
* `src/sans_webapp/services/ai_chat.py`           (send_chat_message routing)
* `src/sans_webapp/components/sidebar.py`         (Load Model action)
* `src/sans_webapp/components/parameters.py`      (polydispersity table row)
* `src/sans_webapp/sans_analysis_utils.py`        (calculate_residuals)

Streamlit session state is modelled as an association list from string keys
to values; Python floats are modelled as rationals; Python exceptions are
modelled with `Except`, where an error value carries the message together
with the mutations that happened before the raise (Python try/except keeps
side effects performed before the exception).  External collaborators (the
sasmodels fitter, the optimizers, the chat APIs) are parameters of the
embedded functions.  Apostrophes and braces inside message strings are
written with their escapes so the strings match the Python sources.
-/

namespace SANSWebapp

/-- ASCII lowercasing of one character, as Python str.lower does on ASCII. -/
def lowerChar (c : Char) : Char :=
  if 65 ≤ c.toNat && c.toNat ≤ 90 then Char.ofNat (c.toNat + 32) else c

/-- ASCII lowercasing of a string (Python str.lower on the messages used here). -/
def lowerStr (s : String) : String :=
  String.mk (s.data.map lowerChar)

/-- Does the character list `pat` occur contiguously inside `hay`?
Used to model the Python substring operator `in`. -/
def listContainsB (pat : List Char) : List Char → Bool
  | [] => pat.isEmpty
  | c :: rest => pat.isPrefixOf (c :: rest) || listContainsB pat rest

/-- Python substring test `pat in hay`. -/
def containsStr (hay pat : String) : Bool :=
  listContainsB pat.data hay.data

/-- Python str.startswith. -/
def startsWithStr (s pre : String) : Bool :=
  pre.data.isPrefixOf s.data

/-- Python repr of a list of strings, e.g. [\x27radius\x27, \x27sld\x27]. -/
def pyListRepr (names : List String) : String :=
  "[" ++ String.intercalate ", " (names.map (fun n => "\x27" ++ n ++ "\x27")) ++ "]"

/-- Values stored in Streamlit session state, as used by the embedded code:
booleans (flags), strings (model name, fit status), numbers (widget mirrors)
and the opaque fit-result object (kept as its reduced chi-square). -/
inductive SVal where
  | vB (b : Bool)
  | vS (s : String)
  | vQ (q : ℚ)
  | vFit (redchi : ℚ)
  | vNone
  deriving DecidableEq

/-- Streamlit st.session_state: a finite map from string keys to values,
modelled as an association list (first binding wins). -/
abbrev SessionState := List (String × SVal)

/-- Dictionary lookup st.session_state.get(k). -/
def sget (st : SessionState) (k : String) : Option SVal :=
  match st with
  | [] => none
  | (k2, v) :: rest => if k2 = k then some v else sget rest k

/-- Dictionary update st.session_state[k] = v (replaces any old binding). -/
def sset (st : SessionState) (k : String) (v : SVal) : SessionState :=
  (k, v) :: st.filter (fun p => !(decide (p.fst = k)))

/-- Python `k in st.session_state`. -/
def hasKey (st : SessionState) (k : String) : Bool :=
  (sget st k).isSome

/-- st.session_state.get(k, default) for boolean flags. -/
def sgetB (st : SessionState) (k : String) (dflt : Bool) : Bool :=
  match sget st k with
  | some (.vB b) => b
  | _ => dflt

/-- Read a numeric session value with a default. -/
def sgetQ (st : SessionState) (k : String) (dflt : ℚ) : ℚ :=
  match sget st k with
  | some (.vQ q) => q
  | _ => dflt

/-! ### SessionStateBridge (services/mcp_state_bridge.py) -/

/-- SessionStateBridge.are_tools_enabled: st.session_state.get(\x27ai_tools_enabled\x27, False). -/
def areToolsEnabled (st : SessionState) : Bool :=
  sgetB st "ai_tools_enabled" false

/-- SessionStateBridge.set_needs_rerun. -/
def setNeedsRerun (st : SessionState) (b : Bool) : SessionState :=
  sset st "needs_rerun" (.vB b)

/-- SessionStateBridge.get_needs_rerun. -/
def getNeedsRerun (st : SessionState) : Bool :=
  sgetB st "needs_rerun" false

/-- SessionStateBridge.set_current_model. -/
def setCurrentModel (st : SessionState) (name : String) : SessionState :=
  sset st "current_model" (.vS name)

/-- SessionStateBridge.set_model_selected. -/
def setModelSelected (st : SessionState) (b : Bool) : SessionState :=
  sset st "model_selected" (.vB b)

/-- SessionStateBridge.set_fit_completed. -/
def setFitCompleted (st : SessionState) (b : Bool) : SessionState :=
  sset st "fit_completed" (.vB b)

/-- SessionStateBridge.set_fit_result (the result object kept as its redchi). -/
def setFitResult (st : SessionState) (redchi : ℚ) : SessionState :=
  sset st "fit_result" (.vFit redchi)

/-- The valid_statuses set of SessionStateBridge.set_fit_status. -/
def validFitStatuses : List String :=
  ["idle", "queued", "running", "completed", "failed"]

/-- SessionStateBridge.set_fit_status: validates the status, raising ValueError
(modelled as `.error`) before any assignment; on success stores the status. -/
def setFitStatus (st : SessionState) (status : String) : Except String SessionState :=
  if status ∈ validFitStatuses then
    .ok (sset st "fit_status" (.vS status))
  else
    .error ("Invalid fit status: " ++ status ++
      ". Must be one of \x7b\x27idle\x27, \x27queued\x27, \x27running\x27, \x27completed\x27, \x27failed\x27\x7d")

/-- Is `k` one of the four widget-mirror prefixes removed by
SessionStateBridge.clear_parameter_widgets? -/
def isWidgetKey (k : String) : Bool :=
  startsWithStr k "value_" || startsWithStr k "min_" ||
    startsWithStr k "max_" || startsWithStr k "vary_"

/-- SessionStateBridge.clear_parameter_widgets: deletes every key starting with
value_, min_, max_ or vary_ (mcp_state_bridge.py lines 178-189). -/
def clearParameterWidgets (st : SessionState) : SessionState :=
  st.filter (fun p => !(isWidgetKey p.fst))

/-! ### session_state.clear_parameter_state (services/session_state.py) -/

/-- Is `k` removed by session_state.clear_parameter_state?  That function also
removes the PD-prefixed keys and the pd_enabled / pd_updates entries. -/
def isParamStateKey (k : String) : Bool :=
  isWidgetKey k || startsWithStr k "pd_width_" || startsWithStr k "pd_n_" ||
    startsWithStr k "pd_type_" || startsWithStr k "pd_vary_" ||
    decide (k = "pd_enabled") || decide (k = "pd_updates")

/-- session_state.clear_parameter_state (session_state.py lines 53-70). -/
def clearParameterState (st : SessionState) : SessionState :=
  st.filter (fun p => !(isParamStateKey p.fst))

/-! ### The fitter adapter (external sans_fitter library, black box)

The tools only use: the parameter dictionary (value, bounds, vary per name),
whether data is loaded, the selected model, the last fit result, and the
structure-factor hooks.  Model loading and fitting are performed by the
external library, so they are parameters of the embedded tools. -/

/-- One fitter parameter: value, bounds (each side possibly None), vary flag. -/
structure Param where
  value : ℚ
  bounds : Option ℚ × Option ℚ
  vary : Bool
  deriving DecidableEq

/-- The SANSFitter surface the tools touch. -/
structure Fitter where
  model : Option String
  params : List (String × Param)
  hasData : Bool
  result : Option ℚ
  structureFactor : Option String
  deriving DecidableEq

/-- Association-list lookup for the fitter parameter dictionary. -/
def lookupParam : List (String × Param) → String → Option Param
  | [], _ => none
  | (k, p) :: rest, n => if k = n then some p else lookupParam rest n

/-- fitter.params[name] lookup (None when the name is absent). -/
def getParam (f : Fitter) (name : String) : Option Param :=
  lookupParam f.params name

/-- In-place mutation of fitter.params[name]. -/
def updParam (f : Fitter) (name : String) (p : Param) : Fitter :=
  { f with params := f.params.map (fun q => if q.fst = name then (q.fst, p) else q) }

/-- The catalogue of models known to the external library: each model name maps
to its declared parameter set (black box behaviour of SANSFitter.set_model). -/
abbrev ModelTable := String → Option (List (String × Param))

/-- fitter.set_model(name): the external library replaces the model and its
parameter dictionary, raising for an unknown model name. -/
def fitterSetModel (tbl : ModelTable) (f : Fitter) (name : String) : Except String Fitter :=
  match tbl name with
  | some ps => .ok { f with model := some name, params := ps }
  | none => .error ("Unknown model: " ++ name)

/-! ### MCP tools (mcp_server.py)

Each tool returns its message string together with the fitter and session
state after the call.  The module-level `_fitter` global is `Option Fitter`
(get_fitter raises when it is None).  Numeric formatting (Python :.4g etc.)
is abstracted to `toString` of the rational; the substrings the spec talks
about (such as "disabled" and "NOT FOUND") are kept verbatim. -/

/-- The fixed tools-disabled message of set_model. -/
def disabledModelChangesMsg : String :=
  "AI tools are disabled. Enable them in the sidebar to allow model changes."

/-- The fixed tools-disabled message of set_parameter and set_multiple_parameters. -/
def disabledParameterChangesMsg : String :=
  "AI tools are disabled. Enable them in the sidebar to allow parameter changes."

/-- The fixed tools-disabled message of enable_polydispersity. -/
def disabledPolydispersityMsg : String :=
  "AI tools are disabled. Enable them in the sidebar to allow polydispersity changes."

/-- The fixed tools-disabled message of set_structure_factor and remove_structure_factor. -/
def disabledStructureFactorMsg : String :=
  "AI tools are disabled. Enable them in the sidebar to allow structure factor changes."

/-- The fixed tools-disabled message of run_fit. -/
def disabledRunFitsMsg : String :=
  "AI tools are disabled. Enable them in the sidebar to run fits."

/-- Result of one tool call: message, fitter global, session state. -/
structure ToolOut where
  msg : String
  fitter : Option Fitter
  state : SessionState
  deriving DecidableEq

/-- Python str() of the message of the RuntimeError raised by get_fitter. -/
def fitterNotInitialized : String :=
  "Fitter not initialized. Load data first."

/-- Python str() of the AttributeError raised at mcp_server.py lines 263 and
316: `SessionStateBridge` (services/mcp_state_bridge.py) defines no method
named set_parameter_widget, so the attribute access on the bridge raises. -/
def noSetParameterWidgetAttr : String :=
  "\x27SessionStateBridge\x27 object has no attribute \x27set_parameter_widget\x27"

/-- Python repr of one side of a bounds tuple. -/
def pyOptRepr (a : Option ℚ) : String :=
  match a with
  | none => "None"
  | some q => toString q

/-- Python repr of a bounds tuple. -/
def pyBoundsRepr (b : Option ℚ × Option ℚ) : String :=
  "(" ++ pyOptRepr b.1 ++ ", " ++ pyOptRepr b.2 ++ ")"

/-- Python repr of a boolean. -/
def pyBoolRepr (b : Bool) : String :=
  if b then "True" else "False"

/-- list_sans_models (read-only): lists the catalogue of the external library. -/
def list_sans_models (models : List String) : String :=
  "Available SANS models (" ++ toString models.length ++ "):\n" ++
    String.intercalate "\n" ((models.mergeSort (fun a b => decide (a ≤ b))).map
      (fun m => "  - " ++ m))

/-- get_model_parameters (read-only): inspects a temporary fitter for the
model; an unknown model makes the library raise, caught into a message. -/
def get_model_parameters (tbl : ModelTable) (model_name : String) : String :=
  match tbl model_name with
  | some ps =>
      String.intercalate "\n"
        (("Parameters for \x27" ++ model_name ++ "\x27:") ::
          ps.map (fun p =>
            "  - " ++ p.fst ++ ": " ++ toString p.snd.value ++ " (bounds: " ++
              pyBoundsRepr p.snd.bounds ++ ", vary: " ++ pyBoolRepr p.snd.vary ++ ")"))
  | none =>
      "Error getting parameters for \x27" ++ model_name ++ "\x27: Unknown model: " ++ model_name

/-- get_current_state (read-only): data, model and parameter summary; the
RuntimeError of get_fitter is caught into an error message. -/
def get_current_state (f? : Option Fitter) : String :=
  match f? with
  | none => "Error getting state: " ++ fitterNotInitialized
  | some f =>
      String.intercalate "\n"
        ("Current SANS Fitter State:" ::
          (if f.hasData then "  Data: loaded" else "  Data: Not loaded") ::
          (match f.model with
           | some m =>
               ("  Model: " ++ m) ::
                 (if f.params.isEmpty then [] else
                   "  Parameters:" ::
                     f.params.map (fun p =>
                       "    - " ++ p.fst ++ ": " ++ toString p.snd.value ++
                         " (vary: " ++ pyBoolRepr p.snd.vary ++ ")"))
           | none => ["  Model: Not selected"]))

/-- get_fit_results (read-only). -/
def get_fit_results (f? : Option Fitter) : String :=
  match f? with
  | none => "Error getting fit results: " ++ fitterNotInitialized
  | some f =>
      match f.result with
      | none => "No fit results available. Run a fit first."
      | some redchi =>
          String.intercalate "\n"
            ("Fit Results:" ::
              ("  Reduced chi-square: " ++ toString redchi) ::
              (if f.params.isEmpty then [] else
                "  Optimized parameters:" ::
                  f.params.map (fun p => "    - " ++ p.fst ++ ": " ++ toString p.snd.value)))

/-- set_model (mutating, mcp_server.py lines 185-212): gated on the tools
flag; on success clears the widget mirrors, then sets current_model,
model_selected, fit_completed=False and needs_rerun=True. -/
def set_model (tbl : ModelTable) (f? : Option Fitter) (st : SessionState)
    (model_name : String) : ToolOut :=
  if !(areToolsEnabled st) then
    ⟨disabledModelChangesMsg, f?, st⟩
  else
    match f? with
    | none =>
        ⟨"Error setting model \x27" ++ model_name ++ "\x27: " ++ fitterNotInitialized, none, st⟩
    | some f =>
        match fitterSetModel tbl f model_name with
        | .error e => ⟨"Error setting model \x27" ++ model_name ++ "\x27: " ++ e, some f, st⟩
        | .ok f2 =>
            let st5 :=
              setNeedsRerun
                (setFitCompleted
                  (setModelSelected (setCurrentModel (clearParameterWidgets st) model_name) true)
                  false) true
            ⟨"Model \x27" ++ model_name ++ "\x27 loaded successfully.\nParameters: " ++
                String.intercalate ", " (f2.params.map (fun p => p.fst)),
              some f2, st5⟩

/-- Apply the optional value / bounds / vary arguments of set_parameter to a
fitter parameter, exactly as the three if-blocks of the Python body do. -/
def applyParamArgs (p : Param) (value min_bound max_bound : Option ℚ)
    (vary : Option Bool) : Param :=
  let p1 := match value with
    | some v => { p with value := v }
    | none => p
  let p2 :=
    if min_bound.isSome || max_bound.isSome then
      { p1 with bounds :=
          (match min_bound with | some v => some v | none => p1.bounds.1,
           match max_bound with | some v => some v | none => p1.bounds.2) }
    else p1
  match vary with
  | some b => { p2 with vary := b }
  | none => p2

/-- The try-block of set_parameter (mcp_server.py lines 235-268).  An error
value carries the Python exception message together with the fitter as
already mutated before the raise.  After mutating the fitter parameter the
body calls bridge.set_parameter_widget, a method `SessionStateBridge` does
not define, so that call raises AttributeError before set_needs_rerun. -/
def set_parameter_body (f? : Option Fitter) (st : SessionState) (name : String)
    (value min_bound max_bound : Option ℚ) (vary : Option Bool) :
    Except (String × Option Fitter × SessionState) ToolOut :=
  match f? with
  | none => .error (fitterNotInitialized, none, st)
  | some f =>
      match getParam f name with
      | none =>
          .ok ⟨"Parameter \x27" ++ name ++ "\x27 not found. Available: " ++
              pyListRepr (f.params.map (fun p => p.fst)), some f, st⟩
      | some p =>
          let f2 := updParam f name (applyParamArgs p value min_bound max_bound vary)
          .error (noSetParameterWidgetAttr, some f2, st)

/-- set_parameter (mutating, mcp_server.py lines 215-270): tools gate, then
the try-block with its except-clause turning any exception into a message. -/
def set_parameter (f? : Option Fitter) (st : SessionState) (name : String)
    (value min_bound max_bound : Option ℚ) (vary : Option Bool) : ToolOut :=
  if !(areToolsEnabled st) then
    ⟨disabledParameterChangesMsg, f?, st⟩
  else
    match set_parameter_body f? st name value min_bound max_bound vary with
    | .ok out => out
    | .error (e, f2, st2) =>
        ⟨"Error setting parameter \x27" ++ name ++ "\x27: " ++ e, f2, st2⟩

/-- The per-item settings dict of set_multiple_parameters. -/
structure ParamSettings where
  value : Option ℚ := none
  min : Option ℚ := none
  max : Option ℚ := none
  vary : Option Bool := none
  deriving DecidableEq

/-- Apply one settings dict to a fitter parameter (the three if-blocks of the
loop body of set_multiple_parameters). -/
def applySettings (p : Param) (s : ParamSettings) : Param :=
  applyParamArgs p s.value s.min s.max s.vary

/-- The parameter loop of set_multiple_parameters (mcp_server.py lines
292-324).  An unknown name appends a NOT FOUND line and continues; a found
name mutates the fitter parameter and then calls the undefined
bridge.set_parameter_widget, raising AttributeError and aborting the batch
with the mutations made so far. -/
def setMultipleLoop (f : Fitter) (st : SessionState) (acc : List String) :
    List (String × ParamSettings) →
      Except (String × Option Fitter × SessionState) (Fitter × List String)
  | [] => .ok (f, acc.reverse)
  | (name, s) :: rest =>
      match getParam f name with
      | none => setMultipleLoop f st (("  - " ++ name ++ ": NOT FOUND") :: acc) rest
      | some p =>
          let f2 := updParam f name (applySettings p s)
          .error (noSetParameterWidgetAttr, some f2, st)

/-- The try-block of set_multiple_parameters (mcp_server.py lines 285-328);
set_needs_rerun runs only if the whole loop finished without an exception. -/
def set_multiple_parameters_body (f? : Option Fitter) (st : SessionState)
    (parameters : List (String × ParamSettings)) :
    Except (String × Option Fitter × SessionState) ToolOut :=
  match f? with
  | none => .error (fitterNotInitialized, none, st)
  | some f =>
      match setMultipleLoop f st [] parameters with
      | .error e => .error e
      | .ok (f2, results) =>
          .ok ⟨"Parameters updated:\n" ++ String.intercalate "\n" results,
            some f2, setNeedsRerun st true⟩

/-- set_multiple_parameters (mutating, mcp_server.py lines 273-330). -/
def set_multiple_parameters (f? : Option Fitter) (st : SessionState)
    (parameters : List (String × ParamSettings)) : ToolOut :=
  if !(areToolsEnabled st) then
    ⟨disabledParameterChangesMsg, f?, st⟩
  else
    match set_multiple_parameters_body f? st parameters with
    | .ok out => out
    | .error (e, f2, st2) => ⟨"Error setting parameters: " ++ e, f2, st2⟩

/-- enable_polydispersity (mutating, mcp_server.py lines 333-365): looks for
the parameter named `{parameter_name}_pd`; when found sets its value to the
width, its vary flag to True, and requests a rerun. -/
def enable_polydispersity (f? : Option Fitter) (st : SessionState)
    (parameter_name pd_type : String) (pd_value : ℚ) : ToolOut :=
  if !(areToolsEnabled st) then
    ⟨disabledPolydispersityMsg, f?, st⟩
  else
    match f? with
    | none => ⟨"Error enabling polydispersity: " ++ fitterNotInitialized, none, st⟩
    | some f =>
        let pdName := parameter_name ++ "_pd"
        match getParam f pdName with
        | some p =>
            let f2 := updParam f pdName { p with value := pd_value, vary := true }
            ⟨"Polydispersity enabled for \x27" ++ parameter_name ++ "\x27: " ++ pd_type ++
                " distribution, width=" ++ toString pd_value,
              some f2, setNeedsRerun st true⟩
        | none =>
            ⟨"Polydispersity parameter \x27" ++ pdName ++
                "\x27 not found. This model may not support PD for \x27" ++
                parameter_name ++ "\x27.", some f, st⟩

/-- set_structure_factor (mutating, mcp_server.py lines 368-395); the
hasattr check holds for the fitter adapter surface of the spec. -/
def set_structure_factor (f? : Option Fitter) (st : SessionState)
    (sf_name : String) : ToolOut :=
  if !(areToolsEnabled st) then
    ⟨disabledStructureFactorMsg, f?, st⟩
  else
    match f? with
    | none => ⟨"Error setting structure factor: " ++ fitterNotInitialized, none, st⟩
    | some f =>
        ⟨"Structure factor \x27" ++ sf_name ++
            "\x27 added. Additional parameters are now available for the interaction potential.",
          some { f with structureFactor := some sf_name }, setNeedsRerun st true⟩

/-- remove_structure_factor (mutating, mcp_server.py lines 398-420). -/
def remove_structure_factor (f? : Option Fitter) (st : SessionState) : ToolOut :=
  if !(areToolsEnabled st) then
    ⟨disabledStructureFactorMsg, f?, st⟩
  else
    match f? with
    | none => ⟨"Error removing structure factor: " ++ fitterNotInitialized, none, st⟩
    | some f =>
        ⟨"Structure factor removed.", some { f with structureFactor := none },
          setNeedsRerun st true⟩

/-- The optimizer call fitter.fit() of the external library: either a reduced
chi-square or a raised exception. -/
abbrev FitFn := Fitter → Except String ℚ

/-- run_fit (mutating, mcp_server.py lines 423-470): gated, requires data and
a model, runs the external fit, then sets fit_completed, fit_result and
needs_rerun, and reports the varied parameters. -/
def run_fit (fitFn : FitFn) (f? : Option Fitter) (st : SessionState) : ToolOut :=
  if !(areToolsEnabled st) then
    ⟨disabledRunFitsMsg, f?, st⟩
  else
    match f? with
    | none => ⟨"Fit failed: " ++ fitterNotInitialized, none, st⟩
    | some f =>
        if !f.hasData then
          ⟨"No data loaded. Load data before running a fit.", some f, st⟩
        else if f.model.isNone then
          ⟨"No model selected. Set a model before running a fit.", some f, st⟩
        else
          match fitFn f with
          | .error e => ⟨"Fit failed: " ++ e, some f, st⟩
          | .ok redchi =>
              let f2 := { f with result := some redchi }
              let st3 := setNeedsRerun (setFitResult (setFitCompleted st true) redchi) true
              ⟨String.intercalate "\n"
                  ("Fit completed!" ::
                    ("Reduced chi-square: " ++ toString redchi) ::
                    "Optimized parameters:" ::
                    ((f2.params.filter (fun p => p.snd.vary)).map
                      (fun p => "  - " ++ p.fst ++ ": " ++ toString p.snd.value))),
                some f2, st3⟩

/-! ### execute_tool (services/claude_mcp_client.py lines 234-260)

The tool input is a Python dict of keyword arguments; we model it as a record
of optional fields.  A missing required argument makes the handler call raise
TypeError, which execute_tool catches into a "Tool parameter error" string;
any other exception would be caught into a "Tool execution error" string. -/

/-- The keyword arguments a tool invocation may carry. -/
structure ToolInput where
  model_name : Option String := none
  name : Option String := none
  value : Option ℚ := none
  min_bound : Option ℚ := none
  max_bound : Option ℚ := none
  vary : Option Bool := none
  parameters : Option (List (String × ParamSettings)) := none
  parameter_name : Option String := none
  pd_type : Option String := none
  pd_value : Option ℚ := none
  sf_name : Option String := none
  deriving DecidableEq

/-- The names registered in the handler map of _build_tool_handlers. -/
def toolNames : List String :=
  ["list-sans-models", "get-model-parameters", "get-current-state", "get-fit-results",
    "set-model", "set-parameter", "set-multiple-parameters", "enable-polydispersity",
    "set-structure-factor", "remove-structure-factor", "run-fit"]

/-- Python str() of the TypeError for a missing required keyword argument,
prefixed as execute_tool does in its `except TypeError` clause. -/
def toolParamError (fn arg : String) : String :=
  "Tool parameter error: " ++ fn ++
    "() missing 1 required positional argument: \x27" ++ arg ++ "\x27"

/-- execute_tool: dispatches on the tool name through the handler map,
returns "Unknown tool: ..." for unregistered names, and converts the
TypeError of a bad keyword set into a textual result.  Read-only handlers do
not touch the fitter or the session state. -/
def executeTool (models : List String) (tbl : ModelTable) (fitFn : FitFn)
    (toolName : String) (input : ToolInput) (f? : Option Fitter)
    (st : SessionState) : ToolOut :=
  if toolName = "list-sans-models" then
    ⟨list_sans_models models, f?, st⟩
  else if toolName = "get-model-parameters" then
    match input.model_name with
    | some mn => ⟨get_model_parameters tbl mn, f?, st⟩
    | none => ⟨toolParamError "get_model_parameters" "model_name", f?, st⟩
  else if toolName = "get-current-state" then
    ⟨get_current_state f?, f?, st⟩
  else if toolName = "get-fit-results" then
    ⟨get_fit_results f?, f?, st⟩
  else if toolName = "set-model" then
    match input.model_name with
    | some mn => set_model tbl f? st mn
    | none => ⟨toolParamError "set_model" "model_name", f?, st⟩
  else if toolName = "set-parameter" then
    match input.name with
    | some n => set_parameter f? st n input.value input.min_bound input.max_bound input.vary
    | none => ⟨toolParamError "set_parameter" "name", f?, st⟩
  else if toolName = "set-multiple-parameters" then
    match input.parameters with
    | some ps => set_multiple_parameters f? st ps
    | none => ⟨toolParamError "set_multiple_parameters" "parameters", f?, st⟩
  else if toolName = "enable-polydispersity" then
    match input.parameter_name with
    | some pn =>
        enable_polydispersity f? st pn (input.pd_type.getD "gaussian")
          (input.pd_value.getD (1 / 10))
    | none => ⟨toolParamError "enable_polydispersity" "parameter_name", f?, st⟩
  else if toolName = "set-structure-factor" then
    match input.sf_name with
    | some sf => set_structure_factor f? st sf
    | none => ⟨toolParamError "set_structure_factor" "sf_name", f?, st⟩
  else if toolName = "remove-structure-factor" then
    remove_structure_factor f? st
  else if toolName = "run-fit" then
    run_fit fitFn f? st
  else
    ⟨"Unknown tool: " ++ toolName, f?, st⟩

/-! ### send_chat_message routing (services/ai_chat.py lines 316-364) -/

/-- Which path send_chat_message takes: the Claude tool-use loop, a canned
short-circuit response, or the legacy OpenAI single-turn completion. -/
inductive ChatRoute where
  | claude
  | canned (response : String)
  | openai
  deriving DecidableEq

/-- The mutation_keywords tuple of send_chat_message. -/
def mutationKeywords : List String :=
  ["set ", "change ", "update ", "enable ", "run fit", "run-fit",
    "set parameter", "set-parameter"]

/-- Does the lowercased user message contain one of the mutation keywords? -/
def hasMutationKeyword (user_message : String) : Bool :=
  mutationKeywords.any (fun k => containsStr (lowerStr user_message) k)

/-- The canned response returned when tools are disabled and the message asks
for a state change (ai_chat.py lines 346-349). -/
def cannedEnableToolsResponse : String :=
  "I can make that change automatically if you enable \x27AI Tools\x27 in the sidebar " ++
    "(🔧 Enable AI Tools). Please toggle it on and send the message again."

/-- send_chat_message (ai_chat.py lines 316-351): with the tools flag present
and true it delegates to the Claude tool path; otherwise a message carrying a
mutation keyword short-circuits to the canned response before any chat API is
contacted, and anything else falls back to the OpenAI path.  The fitter is
returned so the theorems can state that the canned branch leaves it alone;
the two API paths are external functions. -/
def send_chat_message (claudeFn : Fitter → String × Fitter)
    (openaiFn : Fitter → String) (st : SessionState) (f : Fitter)
    (user_message : String) : String × Fitter × ChatRoute :=
  if hasKey st "ai_tools_enabled" && sgetB st "ai_tools_enabled" false then
    let r := claudeFn f
    (r.1, r.2, .claude)
  else if hasMutationKeyword user_message then
    (cannedEnableToolsResponse, f, .canned cannedEnableToolsResponse)
  else
    (openaiFn f, f, .openai)

/-- response_requests_enable_tools (ai_chat.py lines 354-364). -/
def response_requests_enable_tools (response_text : String) : Bool :=
  if response_text = "" then false
  else
    containsStr (lowerStr response_text) "enable" &&
      containsStr (lowerStr response_text) "ai tools"

/-! ### Sidebar Load Model action (components/sidebar.py lines 199-224)

The button handler first deletes every key with one of the four widget-mirror
prefixes (the same filter the bridge uses, inlined in the source), then loads
the model on the fitter and sets the lifecycle flags.  When the library
raises, the keys were already removed and an error message is shown. -/

/-- The Load Model click handler; the third component is the error message of
the except-branch (None on success). -/
def loadModelAction (tbl : ModelTable) (st : SessionState) (f : Fitter)
    (selected_model : String) : SessionState × Fitter × Option String :=
  let st1 := st.filter (fun p => !(isWidgetKey p.fst))
  match fitterSetModel tbl f selected_model with
  | .error e => (st1, f, some ("Error loading model: " ++ e))
  | .ok f2 =>
      let st2 := sset st1 "model_selected" (.vB true)
      let st3 := sset st2 "current_model" (.vS selected_model)
      let st4 := sset st3 "fit_completed" (.vB false)
      let st5 := sset st4 "expand_model_selection" (.vB false)
      (st5, f2, none)

/-! ### Polydispersity table row (components/parameters.py lines 256-339) -/

/-- The PD configuration fitter.get_pd_param returns for one parameter. -/
structure PDConfig where
  pd : ℚ
  pd_n : ℕ
  pd_type : String
  vary : Bool
  deriving DecidableEq

/-- One entry of the pd_updates dictionary built by the table. -/
structure PDUpdate where
  pd_width : ℚ
  pd_n : ℕ
  pd_type : String
  vary : Bool
  deriving DecidableEq

/-- Initialize a session key from a default when it is not present yet
(the `if key not in st.session_state` blocks of the table row). -/
def initKey (st : SessionState) (k : String) (v : SVal) : SessionState :=
  if hasKey st k then st else sset st k v

/-- The four session-key initializations of one polydispersity row. -/
def initPDKeys (st : SessionState) (param_name : String) (cfg : PDConfig) :
    SessionState :=
  initKey
    (initKey
      (initKey (initKey st ("pd_width_" ++ param_name) (.vQ cfg.pd))
        ("pd_n_" ++ param_name) (.vQ cfg.pd_n))
      ("pd_type_" ++ param_name) (.vS cfg.pd_type))
    ("pd_vary_" ++ param_name) (.vB cfg.vary)

/-- One row of render_polydispersity_table: the session keys are initialized
from the fitter configuration when absent, the widgets echo the session
values, a width above 0.5 emits the numerical-instability warning (the value
is neither clamped nor rejected), and the row contributes its update entry.
Returns (session state after initialization, warnings emitted, update). -/
def renderPDRow (st : SessionState) (param_name : String) (cfg : PDConfig) :
    SessionState × List String × PDUpdate :=
  let wKey := "pd_width_" ++ param_name
  let nKey := "pd_n_" ++ param_name
  let tKey := "pd_type_" ++ param_name
  let vKey := "pd_vary_" ++ param_name
  let st4 := initPDKeys st param_name cfg
  let pd_width := sgetQ st4 wKey cfg.pd
  let pd_n := sgetQ st4 nKey cfg.pd_n
  let pd_type := match sget st4 tKey with
    | some (.vS s) => s
    | _ => cfg.pd_type
  let pd_vary := sgetB st4 vKey cfg.vary
  let warnings :=
    if pd_width > 1 / 2 then
      ["⚠️ PD Width for " ++ param_name ++ " is " ++ toString pd_width ++
        ". Values > 0.5 may cause numerical instability."]
    else []
  (st4, warnings, ⟨pd_width, pd_n.num.toNat / pd_n.den, pd_type, pd_vary⟩)

/-! ### calculate_residuals (sans_analysis_utils.py lines 153-171) -/

/-- The epsilon substituted for non-positive uncertainties. -/
def residualEps : ℚ := 1 / 10 ^ 10

/-- np.where(uncertainties > 0, uncertainties, 1e-10), elementwise. -/
def safeUncertainty (u : ℚ) : ℚ :=
  if 0 < u then u else residualEps

/-- calculate_residuals: (experimental - fitted) / safe_uncertainties,
elementwise over arrays of equal length. -/
def calculate_residuals (experimental_i fitted_i uncertainties : List ℚ) : List ℚ :=
  List.zipWith (fun ef u => (ef.1 - ef.2) / safeUncertainty u)
    (List.zip experimental_i fitted_i) uncertainties

/-! ### Concrete fixtures, mirroring the shapes the repository tests use -/

/-- A sphere-like parameter set (cf. the MockFitter of the test suite). -/
def sphereParams : List (String × Param) :=
  [("scale", ⟨1, (some 0, some 10), true⟩),
    ("background", ⟨0, (some 0, some 1), true⟩),
    ("radius", ⟨50, (some 1, some 500), true⟩),
    ("radius_pd", ⟨0, (some 0, some 1), false⟩),
    ("sld", ⟨1, (some 0, some 10), true⟩)]

/-- A cylinder-like parameter set. -/
def cylinderParams : List (String × Param) :=
  [("scale", ⟨1, (some 0, some 10), true⟩),
    ("background", ⟨0, (some 0, some 1), true⟩),
    ("radius", ⟨20, (some 1, some 200), true⟩),
    ("length", ⟨400, (some 1, some 2000), true⟩)]

/-- A two-model catalogue for the external library. -/
def demoTbl : ModelTable := fun n =>
  if n = "sphere" then some sphereParams
  else if n = "cylinder" then some cylinderParams
  else none

/-- The model names the catalogue lists. -/
def demoModels : List String := ["sphere", "cylinder"]

/-- A session state with AI tools enabled. -/
def enabledSt : SessionState :=
  [("ai_tools_enabled", .vB true), ("needs_rerun", .vB false),
    ("fitter", .vNone), ("data_loaded", .vB true)]

/-- A session state with AI tools disabled. -/
def disabledSt : SessionState :=
  [("ai_tools_enabled", .vB false), ("needs_rerun", .vB false),
    ("fitter", .vNone), ("data_loaded", .vB true)]

/-- A fitter with data loaded and the sphere model selected. -/
def demoFitter : Fitter :=
  ⟨some "sphere", sphereParams, true, none, none⟩

/-- An external fit call that converges with reduced chi-square 2. -/
def demoFit : FitFn := fun _ => .ok 2

/-! ### Helper lemmas about the session-state dictionary -/

theorem sget_sset_self (st : SessionState) (k : String) (v : SVal) :
    sget (sset st k v) k = some v := by
  simp [sget, sset]

theorem sget_filter_ne_key (st : SessionState) (k k2 : String) (h : k ≠ k2) :
    sget (st.filter (fun p => !(decide (p.fst = k2)))) k = sget st k := by
  induction st with
  | nil => rfl
  | cons a rest ih =>
      obtain ⟨ak, av⟩ := a
      by_cases hk2 : ak = k2
      · subst hk2
        simp [List.filter_cons, sget, Ne.symm h, ih]
      · by_cases hak : ak = k
        · subst hak
          simp [List.filter_cons, sget, h, hk2]
        · simp [List.filter_cons, hk2, sget, hak, ih]

theorem sget_sset_ne (st : SessionState) (k k2 : String) (v : SVal)
    (h : k ≠ k2) : sget (sset st k2 v) k = sget st k := by
  have h2 : ¬(k2 = k) := fun e => h e.symm
  simp only [sset, sget, if_neg h2]
  exact sget_filter_ne_key st k k2 h

theorem sget_filterKeys (q : String → Bool) (st : SessionState) (k : String) :
    sget (st.filter (fun p => !(q p.fst))) k = if q k then none else sget st k := by
  induction st with
  | nil => cases hq : q k <;> simp [sget, hq]
  | cons a rest ih =>
      obtain ⟨ak, av⟩ := a
      by_cases hak : ak = k
      · subst hak
        cases hq : q ak <;> simp [List.filter_cons, hq, sget, ih]
      · cases hq : q ak <;> simp [List.filter_cons, hq, sget, hak, ih]

theorem sget_clearParameterWidgets (st : SessionState) (k : String) :
    sget (clearParameterWidgets st) k = if isWidgetKey k then none else sget st k :=
  sget_filterKeys isWidgetKey st k

theorem sget_clearParameterState (st : SessionState) (k : String) :
    sget (clearParameterState st) k = if isParamStateKey k then none else sget st k :=
  sget_filterKeys isParamStateKey st k

theorem strData_append (s t : String) : (s ++ t).data = s.data ++ t.data := by
  cases s; cases t; rfl

theorem listContainsB_append_left (pat a c : List Char)
    (h : listContainsB pat c = true) : listContainsB pat (a ++ c) = true := by
  induction a with
  | nil => simpa using h
  | cons x t ih =>
      simp only [List.cons_append, listContainsB, Bool.or_eq_true]
      exact Or.inr ih

theorem containsStr_append_right (a c pat : String)
    (h : containsStr c pat = true) : containsStr (a ++ c) pat = true := by
  simp only [containsStr, strData_append]
  exact listContainsB_append_left pat.data a.data c.data h

theorem append_ne_append_left (s1 s2 t : String) (h : s1.data ≠ s2.data) :
    s1 ++ t ≠ s2 ++ t := by
  intro e
  apply h
  have e2 : (s1 ++ t).data = (s2 ++ t).data := by rw [e]
  rw [strData_append, strData_append] at e2
  exact List.append_cancel_right e2

theorem sget_initKey_ne (st : SessionState) (k k2 : String) (v : SVal)
    (h : k ≠ k2) : sget (initKey st k2 v) k = sget st k := by
  rw [initKey]
  split
  · rfl
  · exact sget_sset_ne st k k2 v h

theorem sget_initPDKeys_width (st : SessionState) (p : String) (cfg : PDConfig)
    (w : ℚ) (h : sget st ("pd_width_" ++ p) = some (.vQ w)) :
    sget (initPDKeys st p cfg) ("pd_width_" ++ p) = some (.vQ w) := by
  rw [initPDKeys]
  rw [sget_initKey_ne _ _ _ _ (append_ne_append_left _ _ _ (by decide))]
  rw [sget_initKey_ne _ _ _ _ (append_ne_append_left _ _ _ (by decide))]
  rw [sget_initKey_ne _ _ _ _ (append_ne_append_left _ _ _ (by decide))]
  rw [initKey, if_pos (by rw [hasKey, h]; rfl)]
  exact h

theorem ne_key_of_widget (k s : String) (hk : isWidgetKey k = true)
    (hs : isWidgetKey s = false) : k ≠ s := by
  intro e
  subst e
  rw [hk] at hs
  exact absurd hs (by decide)

/-! ### Claim theorems -/

/-- The spec example of set-multiple-parameters: radius to 45, scale to 2. -/
def c1Items : List (String × ParamSettings) :=
  [("radius", ⟨some 45, none, none, none⟩), ("scale", ⟨some 2, none, none, none⟩)]

/-- The tool output at the spec example, tools enabled, sphere fitter. -/
def c1Out : ToolOut := set_multiple_parameters (some demoFitter) enabledSt c1Items

/-- C1: the claim says a successful set-multiple-parameters call mirrors the
changed fields into value_radius and value_scale and sets needs_rerun true.
Evaluating the code at exactly the spec example shows the opposite: the first
found parameter is written into the fitter, then the call to the undefined
bridge method set_parameter_widget raises AttributeError, the handler returns
an error string, no mirror key is written, the second parameter is never
applied, and needs_rerun stays false. -/
theorem set_multiple_parameters_mirror_failure :
    c1Out.msg = "Error setting parameters: " ++ noSetParameterWidgetAttr ∧
    sget c1Out.state "value_radius" = none ∧
    sget c1Out.state "value_scale" = none ∧
    getNeedsRerun c1Out.state = false ∧
    c1Out.fitter.bind (fun f2 => getParam f2 "radius") =
      some ⟨45, (some 1, some 500), true⟩ ∧
    c1Out.fitter.bind (fun f2 => getParam f2 "scale") =
      some ⟨1, (some 0, some 10), true⟩ := by
  decide

/-- A batch with one unknown name followed by one known name. -/
def c2Items : List (String × ParamSettings) :=
  [("bogus", ⟨some 1, none, none, none⟩), ("radius", ⟨some 45, none, none, none⟩)]

/-- The tool output at the C2 batch, tools enabled, sphere fitter. -/
def c2Out : ToolOut := set_multiple_parameters (some demoFitter) enabledSt c2Items

/-- C2: the claim says each entry of a set-multiple-parameters batch is
applied independently, unknown names produce per-item NOT FOUND notes in the
returned summary, and needs_rerun is set once after all items.  Evaluating
the code: the unknown first entry is noted internally, but the known second
entry reaches the undefined bridge method set_parameter_widget, the raised
AttributeError aborts the batch, the returned message is a generic error that
carries no NOT FOUND summary, and needs_rerun is never set. -/
theorem set_multiple_parameters_batch_abort :
    c2Out.msg = "Error setting parameters: " ++ noSetParameterWidgetAttr ∧
    containsStr c2Out.msg "NOT FOUND" = false ∧
    getNeedsRerun c2Out.state = false ∧
    c2Out.fitter.bind (fun f2 => getParam f2 "radius") =
      some ⟨45, (some 1, some 500), true⟩ := by
  decide

/-- A session state holding widget mirrors, PD keys and lifecycle keys. -/
def c4State : SessionState :=
  [("value_radius", .vQ 50), ("min_radius", .vQ 1), ("max_radius", .vQ 500),
    ("vary_radius", .vB true), ("pd_width_radius", .vQ 0),
    ("pd_n_radius", .vQ 35), ("pd_type_radius", .vS "gaussian"),
    ("pd_vary_radius", .vB false), ("fitter", .vNone), ("data_loaded", .vB true)]

/-- C4 counterexample: clear_parameter_widgets on the State Bridge does NOT
remove the PD-prefixed keys the claim says it removes; on a state holding
pd_width_radius and pd_type_radius both survive the call (while the four
widget prefixes are removed and fitter / data_loaded are untouched). -/
theorem clear_parameter_widgets_keeps_pd_keys :
    hasKey (clearParameterWidgets c4State) "pd_width_radius" = true ∧
    hasKey (clearParameterWidgets c4State) "pd_n_radius" = true ∧
    hasKey (clearParameterWidgets c4State) "pd_type_radius" = true ∧
    hasKey (clearParameterWidgets c4State) "pd_vary_radius" = true ∧
    hasKey (clearParameterWidgets c4State) "value_radius" = false ∧
    hasKey (clearParameterWidgets c4State) "min_radius" = false ∧
    hasKey (clearParameterWidgets c4State) "max_radius" = false ∧
    hasKey (clearParameterWidgets c4State) "vary_radius" = false ∧
    hasKey (clearParameterWidgets c4State) "fitter" = true ∧
    hasKey (clearParameterWidgets c4State) "data_loaded" = true := by
  decide

/-- C4 amended: the bridge function clear_parameter_widgets removes exactly
the keys with prefix value_, min_, max_, vary_ and no other key (fitter and
data_loaded in particular stay); the PD-prefixed keys are removed not by it
but by the separate session_state.clear_parameter_state, which deletes
exactly the four prefixes, the PD prefixes, pd_enabled and pd_updates. -/
theorem clear_parameter_widgets_exact (st : SessionState) (k : String) :
    sget (clearParameterWidgets st) k = (if isWidgetKey k then none else sget st k) ∧
    sget (clearParameterState st) k = (if isParamStateKey k then none else sget st k) :=
  ⟨sget_clearParameterWidgets st k, sget_clearParameterState st k⟩

/-- C6: set_fit_status accepts exactly the five statuses idle, queued,
running, completed, failed, storing the given status under fit_status, and
raises a ValueError (before any assignment, so the stored status is
unchanged) for every other string. -/
theorem set_fit_status_spec (st : SessionState) (status : String) :
    (status ∈ validFitStatuses →
      setFitStatus st status = .ok (sset st "fit_status" (.vS status))) ∧
    (status ∉ validFitStatuses →
      setFitStatus st status = .error ("Invalid fit status: " ++ status ++
        ". Must be one of \x7b\x27idle\x27, \x27queued\x27, \x27running\x27, \x27completed\x27, \x27failed\x27\x7d")) := by
  constructor
  · intro h
    rw [setFitStatus, if_pos h]
  · intro h
    rw [setFitStatus, if_neg h]

/-- Witness for C6: the valid status running is stored, the invalid status
bogus is rejected. -/
theorem set_fit_status_spec_witness :
    setFitStatus [] "running" = .ok (sset [] "fit_status" (.vS "running")) ∧
    setFitStatus [] "bogus" = .error ("Invalid fit status: " ++ "bogus" ++
      ". Must be one of \x7b\x27idle\x27, \x27queued\x27, \x27running\x27, \x27completed\x27, \x27failed\x27\x7d") :=
  ⟨(set_fit_status_spec [] "running").1 (by decide),
    (set_fit_status_spec [] "bogus").2 (by decide)⟩

/-- C10: calculate_residuals never divides by zero: an uncertainty that is
not strictly positive is replaced by 1e-10 before the division, a strictly
positive uncertainty is used as is, and elementwise the result is
(experimental - fitted) divided by the safe uncertainty. -/
theorem calculate_residuals_safe (e fl u : List ℚ) (i : ℕ) (qe qf qu : ℚ)
    (he : e[i]? = some qe) (hf : fl[i]? = some qf) (hu : u[i]? = some qu) :
    (calculate_residuals e fl u)[i]? = some ((qe - qf) / safeUncertainty qu) ∧
    safeUncertainty qu ≠ 0 ∧
    (0 < qu → safeUncertainty qu = qu) ∧
    (¬0 < qu → safeUncertainty qu = residualEps) := by
  refine ⟨?_, ?_, ?_, ?_⟩
  · rw [calculate_residuals, List.getElem?_zipWith]
    have hz : (List.zip e fl)[i]? = some (qe, qf) :=
      List.getElem?_zip_eq_some.mpr ⟨he, hf⟩
    rw [hz, hu]
  · rw [safeUncertainty]
    split
    · exact ne_of_gt (by assumption)
    · rw [residualEps]
      norm_num
  · intro h
    rw [safeUncertainty, if_pos h]
  · intro h
    rw [safeUncertainty, if_neg h]

/-- The set-model tool invoked with tools enabled. -/
def outSetModel : ToolOut := set_model demoTbl (some demoFitter) enabledSt "cylinder"

/-- The set-parameter tool invoked with tools enabled. -/
def outSetParameter : ToolOut :=
  set_parameter (some demoFitter) enabledSt "radius" (some 75) none none none

/-- The set-multiple-parameters tool invoked with tools enabled. -/
def outSetMultiple : ToolOut :=
  set_multiple_parameters (some demoFitter) enabledSt [("radius", ⟨some 45, none, none, none⟩)]

/-- The enable-polydispersity tool invoked with tools enabled. -/
def outEnablePD : ToolOut :=
  enable_polydispersity (some demoFitter) enabledSt "radius" "gaussian" 1

/-- The set-structure-factor tool invoked with tools enabled. -/
def outSetSF : ToolOut := set_structure_factor (some demoFitter) enabledSt "hardsphere"

/-- The remove-structure-factor tool invoked with tools enabled, on a fitter
that carries a structure factor. -/
def outRemoveSF : ToolOut :=
  remove_structure_factor (some ⟨some "sphere", sphereParams, true, none, some "hardsphere"⟩)
    enabledSt

/-- The run-fit tool invoked with tools enabled. -/
def outRunFit : ToolOut := run_fit demoFit (some demoFitter) enabledSt

/-- C3: every mutating tool checks the tools flag first: with tools disabled
each of the seven tools returns its fixed message (which contains the word
disabled) and leaves both the fitter and the session state untouched, for all
arguments; with tools enabled each tool performs its fitter mutation and its
message does not contain the word disabled (shown on representative valid
inputs: the model is switched, the parameter value is written, the batch
entry is written, the radius_pd parameter gets the width with vary on, the
structure factor is added and removed, the fit result is stored with
fit_completed and needs_rerun set). -/
theorem mutating_tools_gate (tbl : ModelTable) (fitFn : FitFn) :
    (∀ (f? : Option Fitter) (st : SessionState), areToolsEnabled st = false →
      (∀ mn, set_model tbl f? st mn = ⟨disabledModelChangesMsg, f?, st⟩) ∧
      (∀ n v mn mx vy,
        set_parameter f? st n v mn mx vy = ⟨disabledParameterChangesMsg, f?, st⟩) ∧
      (∀ ps, set_multiple_parameters f? st ps = ⟨disabledParameterChangesMsg, f?, st⟩) ∧
      (∀ pn pt pv,
        enable_polydispersity f? st pn pt pv = ⟨disabledPolydispersityMsg, f?, st⟩) ∧
      (∀ sf, set_structure_factor f? st sf = ⟨disabledStructureFactorMsg, f?, st⟩) ∧
      remove_structure_factor f? st = ⟨disabledStructureFactorMsg, f?, st⟩ ∧
      run_fit fitFn f? st = ⟨disabledRunFitsMsg, f?, st⟩) ∧
    (containsStr disabledModelChangesMsg "disabled" = true ∧
      containsStr disabledParameterChangesMsg "disabled" = true ∧
      containsStr disabledPolydispersityMsg "disabled" = true ∧
      containsStr disabledStructureFactorMsg "disabled" = true ∧
      containsStr disabledRunFitsMsg "disabled" = true) ∧
    (outSetModel.fitter = some ⟨some "cylinder", cylinderParams, true, none, none⟩ ∧
      sget outSetModel.state "current_model" = some (.vS "cylinder") ∧
      containsStr outSetModel.msg "disabled" = false ∧
      outSetParameter.fitter.bind (fun f2 => getParam f2 "radius") =
        some ⟨75, (some 1, some 500), true⟩ ∧
      containsStr outSetParameter.msg "disabled" = false ∧
      outSetMultiple.fitter.bind (fun f2 => getParam f2 "radius") =
        some ⟨45, (some 1, some 500), true⟩ ∧
      containsStr outSetMultiple.msg "disabled" = false ∧
      outEnablePD.fitter.bind (fun f2 => getParam f2 "radius_pd") =
        some ⟨1, (some 0, some 1), true⟩ ∧
      containsStr outEnablePD.msg "disabled" = false ∧
      outSetSF.fitter = some ⟨some "sphere", sphereParams, true, none, some "hardsphere"⟩ ∧
      containsStr outSetSF.msg "disabled" = false ∧
      outRemoveSF.fitter = some ⟨some "sphere", sphereParams, true, none, none⟩ ∧
      containsStr outRemoveSF.msg "disabled" = false ∧
      outRunFit.fitter = some ⟨some "sphere", sphereParams, true, some 2, none⟩ ∧
      sget outRunFit.state "fit_completed" = some (.vB true) ∧
      getNeedsRerun outRunFit.state = true ∧
      containsStr outRunFit.msg "disabled" = false) := by
  refine ⟨?_, by decide, by decide⟩
  intro f? st h
  refine ⟨fun mn => ?_, fun n v mn mx vy => ?_, fun ps => ?_, fun pn pt pv => ?_,
    fun sf => ?_, ?_, ?_⟩
  · simp [set_model, h]
  · simp [set_parameter, h]
  · simp [set_multiple_parameters, h]
  · simp [enable_polydispersity, h]
  · simp [set_structure_factor, h]
  · simp [remove_structure_factor, h]
  · simp [run_fit, h]

/-- Witness for C3: with tools disabled, set-model and run-fit leave the
fitter and the session state untouched and return the fixed messages. -/
theorem mutating_tools_gate_witness :
    set_model demoTbl (some demoFitter) disabledSt "cylinder" =
      ⟨disabledModelChangesMsg, some demoFitter, disabledSt⟩ ∧
    run_fit demoFit (some demoFitter) disabledSt =
      ⟨disabledRunFitsMsg, some demoFitter, disabledSt⟩ := by
  have h := (mutating_tools_gate demoTbl demoFit).1 (some demoFitter) disabledSt (by decide)
  exact ⟨h.1 "cylinder", h.2.2.2.2.2.2⟩

/-- C5: on both model-change paths (the set-model tool and the sidebar Load
Model action), a successful change first deletes every widget-mirror key
(the value_/min_/max_/vary_ keys of section 3 of the spec), so afterwards no
mirror key of any previously loaded model remains in session state, and
fit_completed is set to false. -/
theorem model_change_clears_mirrors (tbl : ModelTable) (f : Fitter)
    (st : SessionState) (name : String) (ps : List (String × Param))
    (hen : areToolsEnabled st = true) (hm : tbl name = some ps) :
    (∀ k, isWidgetKey k = true → sget (set_model tbl (some f) st name).state k = none) ∧
    sget (set_model tbl (some f) st name).state "fit_completed" = some (.vB false) ∧
    (∀ k, isWidgetKey k = true → sget (loadModelAction tbl st f name).1 k = none) ∧
    sget (loadModelAction tbl st f name).1 "fit_completed" = some (.vB false) := by
  refine ⟨?_, ?_, ?_, ?_⟩
  · intro k hk
    have h1 := ne_key_of_widget k "needs_rerun" hk (by decide)
    have h2 := ne_key_of_widget k "fit_completed" hk (by decide)
    have h3 := ne_key_of_widget k "model_selected" hk (by decide)
    have h4 := ne_key_of_widget k "current_model" hk (by decide)
    simp [set_model, hen, fitterSetModel, hm, setNeedsRerun, setFitCompleted,
      setModelSelected, setCurrentModel, sget_sset_ne _ _ _ _ h1, sget_sset_ne _ _ _ _ h2,
      sget_sset_ne _ _ _ _ h3, sget_sset_ne _ _ _ _ h4, sget_clearParameterWidgets, hk]
  · have h1 : ("fit_completed" : String) ≠ "needs_rerun" := by decide
    simp [set_model, hen, fitterSetModel, hm, setNeedsRerun, setFitCompleted,
      sget_sset_ne _ _ _ _ h1, sget_sset_self]
  · intro k hk
    have h1 := ne_key_of_widget k "model_selected" hk (by decide)
    have h2 := ne_key_of_widget k "current_model" hk (by decide)
    have h3 := ne_key_of_widget k "fit_completed" hk (by decide)
    have h4 := ne_key_of_widget k "expand_model_selection" hk (by decide)
    simp [loadModelAction, fitterSetModel, hm, sget_sset_ne _ _ _ _ h1,
      sget_sset_ne _ _ _ _ h2, sget_sset_ne _ _ _ _ h3, sget_sset_ne _ _ _ _ h4,
      sget_filterKeys isWidgetKey, hk]
  · have h1 : ("fit_completed" : String) ≠ "expand_model_selection" := by decide
    simp [loadModelAction, fitterSetModel, hm, sget_sset_ne _ _ _ _ h1, sget_sset_self]

/-- Witness for C5: switching the sphere fitter to cylinder removes
value_radius and vary_radius and resets fit_completed, on both paths. -/
theorem model_change_clears_mirrors_witness :
    sget (set_model demoTbl (some demoFitter) enabledSt "cylinder").state "value_radius" =
      none ∧
    sget (set_model demoTbl (some demoFitter) enabledSt "cylinder").state "fit_completed" =
      some (.vB false) ∧
    sget (loadModelAction demoTbl enabledSt demoFitter "cylinder").1 "vary_radius" = none ∧
    sget (loadModelAction demoTbl enabledSt demoFitter "cylinder").1 "fit_completed" =
      some (.vB false) := by
  have h := model_change_clears_mirrors demoTbl demoFitter enabledSt "cylinder"
    cylinderParams (by decide) (by decide)
  exact ⟨h.1 "value_radius" (by decide), h.2.1, h.2.2.1 "vary_radius" (by decide), h.2.2.2⟩

/-- C7: the tool-execution layer never lets an exception reach the
conversation loop: a tool name outside the handler registry yields the
Unknown-tool string and touches nothing, and an exception raised inside a
tool body (here the AttributeError that set-parameter raises at the missing
bridge method) is caught by the handler and returned as a textual
error-description result with the state the body had produced. -/
theorem execute_tool_no_propagation (models : List String) (tbl : ModelTable)
    (fitFn : FitFn) :
    (∀ (toolName : String) (input : ToolInput) (f? : Option Fitter) (st : SessionState),
      toolName ∉ toolNames →
      executeTool models tbl fitFn toolName input f? st =
        ⟨"Unknown tool: " ++ toolName, f?, st⟩) ∧
    (∀ (f? : Option Fitter) (st : SessionState) (n : String) (v mn mx : Option ℚ)
      (vy : Option Bool) (e : String) (f2 : Option Fitter) (st2 : SessionState),
      areToolsEnabled st = true →
      set_parameter_body f? st n v mn mx vy = .error (e, f2, st2) →
      set_parameter f? st n v mn mx vy =
        ⟨"Error setting parameter \x27" ++ n ++ "\x27: " ++ e, f2, st2⟩) := by
  constructor
  · intro toolName input f? st h
    simp only [toolNames, List.mem_cons, List.not_mem_nil, or_false, not_or] at h
    obtain ⟨h1, h2, h3, h4, h5, h6, h7, h8, h9, h10, h11⟩ := h
    rw [executeTool, if_neg h1, if_neg h2, if_neg h3, if_neg h4, if_neg h5, if_neg h6,
      if_neg h7, if_neg h8, if_neg h9, if_neg h10, if_neg h11]
  · intro f? st n v mn mx vy e f2 st2 hen herr
    simp [set_parameter, hen, herr]

/-- Witness for C7: an unregistered name returns the Unknown-tool string, and
the AttributeError inside set-parameter comes back as an error string while
the fitter keeps the mutation made before the raise. -/
theorem execute_tool_no_propagation_witness :
    executeTool demoModels demoTbl demoFit "frobnicate" {} (some demoFitter) enabledSt =
      ⟨"Unknown tool: " ++ "frobnicate", some demoFitter, enabledSt⟩ ∧
    set_parameter (some demoFitter) enabledSt "radius" (some 75) none none none =
      ⟨"Error setting parameter \x27" ++ "radius" ++ "\x27: " ++ noSetParameterWidgetAttr,
        some (updParam demoFitter "radius" ⟨75, (some 1, some 500), true⟩), enabledSt⟩ := by
  refine ⟨(execute_tool_no_propagation demoModels demoTbl demoFit).1 "frobnicate" {}
    (some demoFitter) enabledSt (by decide), ?_⟩
  exact (execute_tool_no_propagation demoModels demoTbl demoFit).2 (some demoFitter)
    enabledSt "radius" (some 75) none none none noSetParameterWidgetAttr
    (some (updParam demoFitter "radius" ⟨75, (some 1, some 500), true⟩)) enabledSt
    (by decide) (by rfl)

/-- C8: with AI tools disabled (flag absent or false) and a mutation-intent
keyword in the message, send_chat_message short-circuits to the canned
enable-tools response: neither chat API function is consulted (the result is
the same for every claudeFn and openaiFn), the fitter is returned unchanged,
and the response contains both enable and ai tools case-insensitively, so
response_requests_enable_tools recognizes it. -/
theorem send_chat_message_disabled_keyword (claudeFn : Fitter → String × Fitter)
    (openaiFn : Fitter → String) (st : SessionState) (f : Fitter)
    (user_message : String)
    (hdis : (hasKey st "ai_tools_enabled" && sgetB st "ai_tools_enabled" false) = false)
    (hkw : hasMutationKeyword user_message = true) :
    send_chat_message claudeFn openaiFn st f user_message =
      (cannedEnableToolsResponse, f, .canned cannedEnableToolsResponse) ∧
    containsStr (lowerStr cannedEnableToolsResponse) "enable" = true ∧
    containsStr (lowerStr cannedEnableToolsResponse) "ai tools" = true ∧
    response_requests_enable_tools cannedEnableToolsResponse = true := by
  refine ⟨?_, by decide, by decide, by decide⟩
  simp [send_chat_message, hdis, hkw]

/-- Witness for C8: tools toggled off plus the message set radius to 10. -/
theorem send_chat_message_disabled_keyword_witness :
    send_chat_message (fun f => ("", f)) (fun _ => "")
      [("ai_tools_enabled", .vB false)] demoFitter "set radius to 10" =
      (cannedEnableToolsResponse, demoFitter, .canned cannedEnableToolsResponse) ∧
    containsStr (lowerStr cannedEnableToolsResponse) "enable" = true ∧
    containsStr (lowerStr cannedEnableToolsResponse) "ai tools" = true ∧
    response_requests_enable_tools cannedEnableToolsResponse = true :=
  send_chat_message_disabled_keyword (fun f => ("", f)) (fun _ => "")
    [("ai_tools_enabled", .vB false)] demoFitter "set radius to 10" (by decide) (by decide)

/-- C9: in the polydispersity table, a stored width strictly above 0.5 makes
the row emit exactly one warning, that warning contains the phrase numerical
instability, and the width enters the returned PD update unchanged (neither
clamped nor rejected). -/
theorem pd_width_warning (st : SessionState) (param_name : String)
    (cfg : PDConfig) (w : ℚ)
    (hw : sget st ("pd_width_" ++ param_name) = some (.vQ w))
    (hhalf : 1 / 2 < w) :
    (renderPDRow st param_name cfg).2.2.pd_width = w ∧
    ∃ warning, (renderPDRow st param_name cfg).2.1 = [warning] ∧
      containsStr warning "numerical instability" = true := by
  have hW : sgetQ (initPDKeys st param_name cfg) ("pd_width_" ++ param_name) cfg.pd = w := by
    rw [sgetQ, sget_initPDKeys_width st param_name cfg w hw]
  refine ⟨?_, ?_⟩
  · simp [renderPDRow, hW]
  · refine ⟨"⚠️ PD Width for " ++ param_name ++ " is " ++ toString w ++
      ". Values > 0.5 may cause numerical instability.", ?_, ?_⟩
    · simp only [renderPDRow, hW]
      rw [if_pos hhalf]
    · exact containsStr_append_right _ _ _ (by decide)

/-- Witness for C9: width 1 stored for radius triggers the warning and is
kept in the update. -/
theorem pd_width_warning_witness :
    (renderPDRow [("pd_width_radius", .vQ 1)] "radius" ⟨0, 35, "gaussian", false⟩).2.2.pd_width =
      1 ∧
    ∃ warning,
      (renderPDRow [("pd_width_radius", .vQ 1)] "radius" ⟨0, 35, "gaussian", false⟩).2.1 =
        [warning] ∧ containsStr warning "numerical instability" = true :=
  pd_width_warning [("pd_width_radius", .vQ 1)] "radius" ⟨0, 35, "gaussian", false⟩ 1
    (by decide) (by norm_num)

/-- Witness for C10: at index 0 the uncertainty 0 is replaced by 1e-10. -/
theorem calculate_residuals_safe_witness :
    (calculate_residuals [3, 4] [1, 2] [0, 2])[0]? =
      some (((3 : ℚ) - 1) / safeUncertainty 0) ∧
    safeUncertainty (0 : ℚ) ≠ 0 ∧
    ((0 : ℚ) < 0 → safeUncertainty (0 : ℚ) = 0) ∧
    (¬(0 : ℚ) < 0 → safeUncertainty (0 : ℚ) = residualEps) :=
  calculate_residuals_safe [3, 4] [1, 2] [0, 2] 0 3 1 0 (by decide) (by decide) (by decide)

end SANSWebapp
